import Mathlib

/-!
Verification development for the SolarGraph agent-orchestration core.

Shallow embedding of the Python sources:
  llm_agent.py     (single-shot grounding agent with a two-tier cache)
  react_agent.py   (multi-step ReAct reasoning loop with a session cache)
  provenance.py    (provenance recorder)

External collaborators are modelled at their interface boundary, as the
specification prescribes:
  the text-generation service is a function from the request payload to a
  response (wrapped in Except, since the transport can fail); the fact
  query interface (query_engine.py wraps rdflib, an external SPARQL
  store) is a structure of read operations that can fail; the sha256
  content hash, the JSON argument decoder and the wall clock are
  parameters.  Machine timestamps are modelled as integers.
-/

/-! ## Generic helpers: Python string and dict primitives -/

/-- Model of a result row as returned by the fact query interface: a
dictionary from (string) variable names to string values. -/
abbrev Row := List (String × String)

/-- Python dict.get with a default value. -/
def rowGet (r : Row) (k d : String) : String :=
  match r.find? (fun kv => kv.1 == k) with
  | some kv => kv.2
  | none => d

/-- Python dict.get without a default (None when absent). -/
def rowGetOpt (r : Row) (k : String) : Option String :=
  (r.find? (fun kv => kv.1 == k)).map (fun kv => kv.2)

/-- Model of the Python truthiness test on an optional string: None and
the empty string are falsy. -/
def pyTruthyStr : Option String → Bool
  | none => false
  | some s => s != ""

/-- Model of Python `a or b` on an optional string with a string default:
None and the empty string fall through to the default. -/
def pyOrStr : Option String → String → String
  | none, d => d
  | some s, d => if s = "" then d else s

/-- Python str.lower, character by character.  (Defined by structural
recursion so that concrete instances evaluate inside the kernel, which
the built-in String.toLower does not.) -/
def pyLower (s : String) : String := ⟨s.data.map Char.toLower⟩

/-- Python str.strip with no arguments: remove leading and trailing
whitespace. -/
def pyStrip (s : String) : String :=
  ⟨((s.data.dropWhile Char.isWhitespace).reverse.dropWhile Char.isWhitespace).reverse⟩

/-- needle is a leading segment of the haystack (both as char lists). -/
def leadsWith : List Char → List Char → Bool
  | [], _ => true
  | _ :: _, [] => false
  | a :: as, b :: bs => a == b && leadsWith as bs

/-- needle occurs contiguously somewhere inside the haystack; models the
Python substring operator on strings. -/
def occursIn (needle : List Char) : List Char → Bool
  | [] => leadsWith needle []
  | b :: bs => leadsWith needle (b :: bs) || occursIn needle bs

/-- String form of `occursIn`: Python `needle in hay`. -/
def occursInStr (needle hay : String) : Bool :=
  occursIn needle.toList hay.toList

theorem leadsWith_iff (n h : List Char) :
    leadsWith n h = true ↔ ∃ t, h = n ++ t := by
  induction n generalizing h with
  | nil => simp [leadsWith]
  | cons a as ih =>
    cases h with
    | nil => simp [leadsWith]
    | cons b bs =>
      simp only [leadsWith, Bool.and_eq_true, beq_iff_eq, ih, List.cons_append,
        List.cons.injEq]
      constructor
      · rintro ⟨rfl, t, rfl⟩
        exact ⟨t, rfl, rfl⟩
      · rintro ⟨t, rfl, rfl⟩
        exact ⟨rfl, t, rfl⟩

theorem occursIn_iff (n h : List Char) :
    occursIn n h = true ↔ ∃ s t, h = s ++ n ++ t := by
  induction h with
  | nil =>
    simp only [occursIn, leadsWith_iff]
    constructor
    · rintro ⟨t, ht⟩
      exact ⟨[], t, by simpa using ht⟩
    · rintro ⟨s, t, ht⟩
      rcases List.append_eq_nil.mp (List.append_eq_nil.mp ht.symm).1 with ⟨rfl, rfl⟩
      exact ⟨t, by simpa using ht⟩
  | cons b bs ih =>
    simp only [occursIn, Bool.or_eq_true, leadsWith_iff, ih]
    constructor
    · rintro (⟨t, ht⟩ | ⟨s, t, ht⟩)
      · exact ⟨[], t, by simpa using ht⟩
      · exact ⟨b :: s, t, by simp [ht]⟩
    · rintro ⟨s, t, ht⟩
      cases s with
      | nil => exact Or.inl ⟨t, by simpa using ht⟩
      | cons c cs =>
        simp only [List.cons_append, List.cons.injEq] at ht
        exact Or.inr ⟨cs, t, by simp [ht.2]⟩

/-- Deduplication preserving the first occurrence of each element, the
order Python dict.fromkeys produces. -/
def dedupFirst : List String → List String
  | [] => []
  | x :: xs => x :: (dedupFirst xs).filter (fun y => y ≠ x)

theorem mem_dedupFirst (a : String) (l : List String) : a ∈ dedupFirst l ↔ a ∈ l := by
  induction l with
  | nil => simp [dedupFirst]
  | cons x xs ih =>
    simp only [dedupFirst, List.mem_cons, List.mem_filter, ih]
    constructor
    · rintro (rfl | ⟨h, _⟩)
      · exact Or.inl rfl
      · exact Or.inr h
    · rintro (rfl | h)
      · exact Or.inl rfl
      · by_cases hax : a = x
        · exact Or.inl hax
        · exact Or.inr ⟨h, by simp [hax]⟩

/-! ## The persistent TTL cache shared by both agents

Both llm_agent.py and react_agent.py keep a flat JSON mapping from a
sha256 content hash of the normalized query to an entry carrying a
timestamp.  The mapping is modelled as an association list with the
Python dict operations; file persistence (_load_cache and _save_cache
swallow their own I/O errors) is abstracted away, the dict being the
authoritative state. -/

/-- One persistent-cache entry of the single-shot agent: the answer text
and the write timestamp. -/
structure CacheEntry where
  answer : String
  ts : Int
deriving DecidableEq

abbrev FileCache := List (String × CacheEntry)

/-- Python dict lookup. -/
def cacheGet (k : String) : List (String × α) → Option α
  | [] => none
  | kv :: rest => if kv.1 = k then some kv.2 else cacheGet k rest

/-- Python dict assignment: replace the binding in place, or append. -/
def cacheSet (k : String) (v : α) : List (String × α) → List (String × α)
  | [] => [(k, v)]
  | kv :: rest => if kv.1 = k then (k, v) :: rest else kv :: cacheSet k v rest

/-- Python del on a dict key (removes every binding of the key, which on
a well-formed dict is the single one). -/
def cacheErase (k : String) (c : List (String × α)) : List (String × α) :=
  c.filter (fun kv => kv.1 ≠ k)

theorem cacheGet_set_self (k : String) (v : α) :
    ∀ c : List (String × α), cacheGet k (cacheSet k v c) = some v
  | [] => by simp [cacheGet, cacheSet]
  | kv :: rest => by
    by_cases h : kv.1 = k
    · simp [cacheSet, h, cacheGet]
    · simp [cacheSet, h, cacheGet, cacheGet_set_self k v rest]

theorem cacheGet_erase_self (k : String) :
    ∀ c : List (String × α), cacheGet k (cacheErase k c) = none
  | [] => by simp [cacheErase, cacheGet]
  | kv :: rest => by
    by_cases h : kv.1 = k
    · simpa [cacheErase, h] using cacheGet_erase_self k rest
    · simpa [cacheErase, cacheGet, h] using cacheGet_erase_self k rest

/-- Key derivation shared by llm_agent._make_key and
react_agent._cache_key: normalize (strip, lowercase) then hash.  The
sha256 digest is the parameter `hash`. -/
def make_key (hash : String → String) (q : String) : String :=
  hash (pyLower (pyStrip q))

/-! ## Single-shot grounding agent (llm_agent.py)

The agent is a function of its injected collaborators: the LRU-memoised
context builder (build_context_for_query over the fact base; memoisation
of a deterministic function is semantically transparent, so the builder
appears as the underlying function), the Groq chat completion call, and
the sha256 hash.  Both collaborators can raise, which Except models;
an Except.error escaping `LLMAgent.answer` models a Python exception
crossing the agent boundary.  The TTL (environment-configurable,
default 86400 seconds) is passed explicitly. -/

/-- llm_agent._get_cached: read an entry through the TTL gate; an entry
older than the TTL is deleted from the mapping and reported as a miss.
Returns the looked-up answer together with the possibly shrunk cache. -/
def get_cached (ttl now : Int) (key : String) (cache : FileCache) :
    Option String × FileCache :=
  match cacheGet key cache with
  | none => (none, cache)
  | some entry =>
    if now - entry.ts > ttl then (none, cacheErase key cache)
    else (some entry.answer, cache)

/-- llm_agent._set_cached: store an answer under the key with the write
timestamp (the subsequent _save_cache call only mirrors the dict to
disk and swallows I/O errors, so it does not appear in the model). -/
def set_cached (key answer : String) (now : Int) (cache : FileCache) : FileCache :=
  cacheSet key ⟨answer, now⟩ cache

/-- The fixed grounding-failure reply of llm_agent.LLMAgent.answer. -/
def notFoundMsg : String :=
  "I could not find relevant information in the PV Solar knowledge graph for that query."

/-- The user message assembled by LLMAgent.answer around the retrieval
context. -/
def mkUserMessage (context user_query : String) : String :=
  "<KNOWLEDGE_GRAPH_CONTEXT>\n" ++ context ++ "\n</KNOWLEDGE_GRAPH_CONTEXT>\n\nQuestion: "
    ++ user_query

/-- Outcome of one LLMAgent.answer call: the answer text, the resulting
persistent cache, and how many generation-service calls were made (an
instrumentation counter the claims quantify over). -/
structure LLMAnswer where
  answer : String
  cache : FileCache
  llmCalls : Nat
deriving DecidableEq

/-- The part of LLMAgent.answer after the file-cache hit test: build the
retrieval context (a failure here is NOT caught and escapes), return the
fixed grounding message on a whitespace-only context without calling the
service, otherwise call the service once, catching its failure into a
descriptive error answer; a successful answer is stripped and written
back to the cache. -/
def LLMAgent.answerMiss (bctx llm : String → Except String String)
    (key : String) (now : Int) (cache1 : FileCache) (user_query : String) :
    Except String LLMAnswer :=
  match bctx user_query with
  | .error exc => .error exc
  | .ok context =>
    if pyStrip context = "" then .ok ⟨notFoundMsg, cache1, 0⟩
    else
      match llm (mkUserMessage context user_query) with
      | .ok content =>
        let answer := pyStrip content
        .ok ⟨answer, set_cached key answer now cache1, 1⟩
      | .error exc => .ok ⟨"Error communicating with the LLM: " ++ exc, cache1, 1⟩

/-- llm_agent.LLMAgent.answer: TTL-gated file-cache lookup whose result
is tested for Python truthiness (so a stored empty string falls through
as a miss), then the miss path. -/
def LLMAgent.answer (bctx llm : String → Except String String)
    (hash : String → String) (ttl now : Int) (cache : FileCache)
    (user_query : String) : Except String LLMAnswer :=
  let key := make_key hash user_query
  let looked := get_cached ttl now key cache
  if pyTruthyStr looked.1 then .ok ⟨looked.1.getD "", looked.2, 0⟩
  else LLMAgent.answerMiss bctx llm key now looked.2 user_query

/-- llm_agent.LLMAgent.clear_cache: count the persistent entries, clear
the persistent dict and drop the LRU memo table, but return only the
persistent count.  The LRU tier (functools.lru_cache around the context
builder) is carried as its entry list and capacity. -/
structure LRUCache where
  entries : List (String × String)
  maxsize : Nat
deriving DecidableEq

def LLMAgent.clear_cache (file_cache : FileCache) (lru : LRUCache) :
    Nat × FileCache × LRUCache :=
  (file_cache.length, [], ⟨[], lru.maxsize⟩)

/-! ## The fact query interface (query_engine.py over rdflib)

query_engine.QueryEngine delegates every operation to an external
SPARQL store, so the specification treats it as an external
collaborator.  It is embedded as the record of the read operations the
agents consume, each able to fail (rdflib raising models as
Except.error). -/

structure QueryEngine where
  sparql : String → Except String (List Row)
  get_entity_details : String → Except String (List Row)
  search_by_keyword : String → Except String (List Row)
  get_absorbers : Except String (List Row)
  get_cell_architectures : Except String (List Row)
  get_defects_and_impacts : Except String (List Row)
  get_relationships : Except String (List Row)
  get_all_entities : Except String (List Row)

/-! ## Multi-step ReAct agent (react_agent.py) -/

/-- One tool invocation requested by the generation service, with the
raw JSON argument text. -/
structure ToolCall where
  id : String
  name : String
  arguments : String
deriving DecidableEq

/-- One generation-service response: an optional final message and the
requested tool invocations (empty list models the no-tool-call case). -/
structure ModelMsg where
  content : Option String
  tool_calls : List ToolCall
deriving DecidableEq

/-- One transcript entry of the conversation sent to the generation
service. -/
inductive Msg where
  | system (content : String)
  | user (content : String)
  | assistant (content : String) (tool_calls : List ToolCall)
  | tool (tool_call_id : String) (content : String)
deriving DecidableEq

/-- Parsed tool arguments: the JSON object as a string-to-string
dictionary (the shapes the fixed tool set declares). -/
abbrev Args := List (String × String)

/-- One ToolInvocationRecord appended to the trace by the loop. -/
structure StepRec where
  iteration : Nat
  tool : String
  args : Args
  result_preview : String
deriving DecidableEq

/-- The result dict of ReActAgent.answer. -/
structure ReactResult where
  answer : String
  steps : List StepRec
  iterations : Nat
  cached : Bool
deriving DecidableEq

/-- One session-cache entry: the result bundle plus write timestamp. -/
structure ReactEntry where
  data : ReactResult
  ts : Int
deriving DecidableEq

abbrev ReactCache := List (String × ReactEntry)

/-- react_agent.MAX_ITERATIONS. -/
def MAX_ITERATIONS : Nat := 6

/-- JSON string literal with the escapes relevant to this model. -/
def jsonStr (s : String) : String :=
  "\"" ++ ⟨s.data.foldr (fun c acc =>
      if c = '"' then '\\' :: '"' :: acc
      else if c = '\\' then '\\' :: '\\' :: acc
      else c :: acc) []⟩ ++ "\""

/-- json.dumps of one result row (a flat string-to-string object). -/
def jsonRow (r : Row) : String :=
  "\x7b" ++ String.intercalate ", "
    (r.map (fun kv => jsonStr kv.1 ++ ": " ++ jsonStr kv.2)) ++ "\x7d"

/-- json.dumps of a list of result rows. -/
def jsonDumps (rows : List Row) : String :=
  "[" ++ String.intercalate ", " (rows.map jsonRow) ++ "]"

/-- json.dumps of an error observation object, as produced inside
react_agent._execute_tool. -/
def errJson (msg : String) : String :=
  "\x7b\"error\": " ++ jsonStr msg ++ "\x7d"

/-- react_agent._execute_tool: fixed dispatch table from tool name to a
fact-query call with result-size caps; a missing required argument or a
query-engine failure is caught and serialized as an error observation,
and an unknown tool name yields a structured error, never a thrown
failure. -/
def execute_tool (qe : QueryEngine) (name : String) (args : Args) : String :=
  if name = "sparql_query" then
    match rowGetOpt args "query" with
    | none => errJson "KeyError: query"
    | some q =>
      match qe.sparql q with
      | .ok rows => jsonDumps (rows.take 40)
      | .error e => errJson e
  else if name = "get_entity_details" then
    match rowGetOpt args "entity_name" with
    | none => errJson "KeyError: entity_name"
    | some n =>
      match qe.get_entity_details n with
      | .ok rows => jsonDumps rows
      | .error e => errJson e
  else if name = "keyword_search" then
    match rowGetOpt args "keyword" with
    | none => errJson "KeyError: keyword"
    | some k =>
      match qe.search_by_keyword k with
      | .ok rows => jsonDumps (rows.take 20)
      | .error e => errJson e
  else if name = "get_absorbers" then
    match qe.get_absorbers with
    | .ok rows => jsonDumps rows
    | .error e => errJson e
  else if name = "get_architectures" then
    match qe.get_cell_architectures with
    | .ok rows => jsonDumps rows
    | .error e => errJson e
  else if name = "get_defects" then
    match qe.get_defects_and_impacts with
    | .ok rows => jsonDumps rows
    | .error e => errJson e
  else if name = "get_relationships" then
    match qe.get_relationships with
    | .ok rows => jsonDumps (rows.take 60)
    | .error e => errJson e
  else
    errJson ("Unknown tool: " ++ name)

/-- The loop body over one turn of requested tool calls, in request
order: parse the JSON arguments (a decode failure degrades to the empty
argument dict), execute the tool, record a ToolInvocationRecord with a
300-character result preview, and emit the tool-role transcript entry
tied to the call id. -/
def execToolCalls (qe : QueryEngine) (jsonLoads : String → Option Args)
    (iteration : Nat) : List ToolCall → List StepRec × List Msg
  | [] => ([], [])
  | tc :: rest =>
    let tool_args := (jsonLoads tc.arguments).getD []
    let result_str := execute_tool qe tc.name tool_args
    let r := execToolCalls qe jsonLoads iteration rest
    (⟨iteration, tc.name, tool_args, result_str.take 300⟩ :: r.1,
      Msg.tool tc.id result_str :: r.2)

/-- Outcome of one ReActAgent.answer call: the result bundle, the
resulting session cache, the number of generation-service calls made,
and whether the run ended through the final-message branch (both are
instrumentation the claims quantify over). -/
structure ReactOutcome where
  result : ReactResult
  cache : ReactCache
  genCalls : Nat
  done : Bool
deriving DecidableEq

/-- The while-loop of ReActAgent.answer.  `fuel` is the remaining
iteration budget (MAX_ITERATIONS minus the iterations already taken);
each pass consults the generation service once, either finishing with
the final message (persisting the bundle to the session cache) or
executing the requested tools and looping; an exhausted budget returns
the fixed terminal answer with the accumulated partial trace and leaves
the cache untouched. -/
def reactLoop (llm : List Msg → ModelMsg) (qe : QueryEngine)
    (jsonLoads : String → Option Args) (key : String) (now : Int) :
    Nat → Nat → List Msg → List StepRec → ReactCache → Nat → ReactOutcome
  | 0, iterations, _messages, steps, cache, calls =>
    ⟨⟨"Reached maximum reasoning steps.", steps, iterations, false⟩, cache, calls, false⟩
  | fuel + 1, iterations, messages, steps, cache, calls =>
    let iterations := iterations + 1
    let msg := llm messages
    let calls := calls + 1
    if msg.tool_calls = [] then
      let result : ReactResult :=
        ⟨pyOrStr msg.content "No answer generated.", steps, iterations, false⟩
      ⟨result, cacheSet key ⟨result, now⟩ cache, calls, true⟩
    else
      let messages := messages ++ [Msg.assistant (pyOrStr msg.content "") msg.tool_calls]
      let r := execToolCalls qe jsonLoads iterations msg.tool_calls
      reactLoop llm qe jsonLoads key now fuel iterations
        (messages ++ r.2) (steps ++ r.1) cache calls

/-- The session-cache freshness gate at the top of ReActAgent.answer:
the stored bundle, provided the entry exists and its age is strictly
below the TTL (note: on a stale entry the reasoning agent does not
delete it, unlike llm_agent._get_cached). -/
def freshEntry (ttl now : Int) (key : String) (cache : ReactCache) :
    Option ReactResult :=
  match cacheGet key cache with
  | some e => if now - e.ts < ttl then some e.data else none
  | none => none

/-- The system prompt of react_agent.py (fixed transcript head). -/
def REACT_SYSTEM_PROMPT : String :=
  "You are SolarGraph AI — a scientific assistant for Photovoltaic (PV)\nSolar Energy and Materials Science Engineering.\n\nYou have tools to query a formal RDF/OWL knowledge graph. ALWAYS use at least one\ntool before giving a final answer. Never rely on training knowledge alone.\n\nRules:\n1. Use tools to retrieve facts, then reason over the results.\n2. If a first query is insufficient, run a follow-up query.\n3. Cite specific entity names and relationships from your tool results.\n4. Include units for all numeric data (%, eV, mA/cm², V …).\n5. Structure your final answer with clear headings and bullet points.\n6. End your answer with a brief \"## Sources\" section listing the tools you used.\n"

/-- react_agent.ReActAgent.answer: serve a fresh session-cache hit with
the cached flag overridden to true, otherwise run the reasoning loop
from the fixed two-message transcript with the full iteration budget. -/
def ReActAgent.answer (llm : List Msg → ModelMsg) (qe : QueryEngine)
    (jsonLoads : String → Option Args) (hash : String → String)
    (ttl now : Int) (cache : ReactCache) (user_query : String) : ReactOutcome :=
  let key := make_key hash user_query
  match freshEntry ttl now key cache with
  | some data => ⟨{ data with cached := true }, cache, 0, false⟩
  | none =>
    let messages := [Msg.system REACT_SYSTEM_PROMPT, Msg.user user_query]
    reactLoop llm qe jsonLoads key now MAX_ITERATIONS 0 messages [] cache 0

/-! ## Provenance recorder (provenance.py) -/

/-- One supporting knowledge-graph triple of a provenance record. -/
structure Triple where
  subject : String
  predicate : String
  object : String
deriving DecidableEq

/-- provenance.ProvenanceRecord. -/
structure ProvenanceRecord where
  query_id : String
  query_text : String
  timestamp_utc : String
  cited_entities : List String
  supporting_triples : List Triple
  sparql_queries_used : List String
  agent_iterations : Nat
  cached : Bool
deriving DecidableEq

/-- Scan for the leftmost match of the pattern "text inside parentheses,
2 to 20 characters": at each opening parenthesis the run of characters
up to the next closing parenthesis matches when its length lies in
[2, 20]; otherwise the scan moves on, exactly as re.search backtracks. -/
def abbrevAux : List Char → Option (List Char)
  | [] => none
  | c :: rest =>
    if c = '(' then
      let span := rest.takeWhile (fun d => d ≠ ')')
      if 2 ≤ span.length ∧ span.length ≤ 20 ∧ span.length < rest.length then
        some span
      else abbrevAux rest
    else abbrevAux rest

/-- provenance._abbrev: the lowercased parenthetical abbreviation of an
entity name, or the empty string when the pattern does not occur. -/
def extract_abbrev (name : String) : String :=
  match abbrevAux name.data with
  | some cs => pyLower ⟨cs⟩
  | none => ""

/-- The entity-name list drawn from the full entity listing: the name
field of every row that carries a non-empty name. -/
def entityNames (rows : List Row) : List String :=
  (rows.map (fun e => rowGet e "name" "")).filter (fun n => n ≠ "")

/-- The citation test of build_provenance for one name against the
lowercased answer: the lowercased name, or its non-empty parenthetical
abbreviation, occurs as a substring. -/
def nameMatches (answer_lower : String) (name : String) : Bool :=
  occursInStr (pyLower name) answer_lower ||
    (extract_abbrev name ≠ "" && occursInStr (extract_abbrev name) answer_lower)

/-- The cited-entity computation of build_provenance: filter the entity
names through the citation test in listing order, deduplicate keeping
first occurrences, and cap at 15. -/
def cited_of (rows : List Row) (answer : String) : List String :=
  (dedupFirst ((entityNames rows).filter (nameMatches (pyLower answer)))).take 15

/-- The object of one detail row: the named object when present and
truthy, else the literal value (Python `d.get("objectName") or
d.get("dataValue", "")`). -/
def objOf (d : Row) : String :=
  match rowGetOpt d "objectName" with
  | some v => if v = "" then rowGet d "dataValue" "" else v
  | none => rowGet d "dataValue" ""

/-- The triple accumulation over the detail rows of one cited entity:
keep rows with a truthy predicate other than name/description and a
truthy object, deduplicating on the (subject, predicate, object) key
carried in `seen`. -/
def collectFromDetails (ename : String) :
    List Row → List Triple → List (String × String × String) →
      List Triple × List (String × String × String)
  | [], triples, seen => (triples, seen)
  | d :: rest, triples, seen =>
    let pred := rowGet d "predLabel" ""
    let obj := objOf d
    if pred ≠ "" ∧ obj ≠ "" ∧ pred ≠ "name" ∧ pred ≠ "description" then
      if (ename, pred, obj) ∈ seen then
        collectFromDetails ename rest triples seen
      else
        collectFromDetails ename rest (triples ++ [⟨ename, pred, obj⟩])
          ((ename, pred, obj) :: seen)
    else collectFromDetails ename rest triples seen

/-- The supporting-triple pass of build_provenance over the first cited
entities: fetch the detail rows of each from the fact query interface
(a failure propagates, there is no handler in provenance.py) and fold
them through `collectFromDetails`. -/
def collectTriples (qe : QueryEngine) :
    List String → List Triple → List (String × String × String) →
      Except String (List Triple)
  | [], triples, _ => .ok triples
  | ename :: rest, triples, seen =>
    match qe.get_entity_details ename with
    | .error e => .error e
    | .ok details =>
      let r := collectFromDetails ename details triples seen
      collectTriples qe rest r.1 r.2

/-- provenance.build_provenance: fetch the entity listing, compute the
cited entities, fetch supporting triples for the first 8 of them (25
kept), and pull the literal SPARQL query text of every sparql_query
step carrying a truthy query argument.  `hash` models the sha256 digest
of the raw query text and `now_iso` the current UTC timestamp.  Any
fact-query failure propagates out as Except.error: the function has no
exception handler. -/
def build_provenance (hash : String → String) (now_iso : String)
    (query answer : String) (qe : QueryEngine) (agent_steps : List StepRec)
    (agent_iterations : Nat) (cached : Bool) : Except String ProvenanceRecord :=
  match qe.get_all_entities with
  | .error e => .error e
  | .ok all_entities =>
    let cited := cited_of all_entities answer
    match collectTriples qe (cited.take 8) [] [] with
    | .error e => .error e
    | .ok triples =>
      let sparql_used := agent_steps.filterMap (fun s =>
        if s.tool = "sparql_query" ∧ rowGet s.args "query" "" ≠ "" then
          some (rowGet s.args "query" "")
        else none)
      .ok ⟨hash query, query, now_iso, cited, triples.take 25, sparql_used,
        agent_iterations, cached⟩

/-! ## Loop lemmas for the reasoning agent -/

theorem execToolCalls_fst_ne_nil (qe : QueryEngine) (jl : String → Option Args)
    (it : Nat) (tcs : List ToolCall) (h : tcs ≠ []) :
    (execToolCalls qe jl it tcs).1 ≠ [] := by
  cases tcs with
  | nil => exact absurd rfl h
  | cons tc rest => simp [execToolCalls]

theorem reactLoop_exhausts (llm : List Msg → ModelMsg) (qe : QueryEngine)
    (jl : String → Option Args) (key : String) (now : Int)
    (htools : ∀ m, (llm m).tool_calls ≠ []) :
    ∀ (fuel iterations : Nat) (messages : List Msg) (steps : List StepRec)
      (cache : ReactCache) (calls : Nat),
      ∃ extra,
        reactLoop llm qe jl key now fuel iterations messages steps cache calls =
          ⟨⟨"Reached maximum reasoning steps.", steps ++ extra, iterations + fuel, false⟩,
            cache, calls + fuel, false⟩ ∧
        (fuel ≠ 0 → extra ≠ []) := by
  intro fuel
  induction fuel with
  | zero =>
    intro iterations messages steps cache calls
    exact ⟨[], by simp [reactLoop], fun h => absurd rfl h⟩
  | succ fuel ih =>
    intro iterations messages steps cache calls
    obtain ⟨extra, heq, -⟩ := ih (iterations + 1)
      ((messages ++ [Msg.assistant (pyOrStr (llm messages).content "") (llm messages).tool_calls])
        ++ (execToolCalls qe jl (iterations + 1) (llm messages).tool_calls).2)
      (steps ++ (execToolCalls qe jl (iterations + 1) (llm messages).tool_calls).1)
      cache (calls + 1)
    refine ⟨(execToolCalls qe jl (iterations + 1) (llm messages).tool_calls).1 ++ extra, ?_, ?_⟩
    · rw [reactLoop]
      rw [if_neg (htools messages)]
      rw [heq]
      simp only [ReactOutcome.mk.injEq, ReactResult.mk.injEq, List.append_assoc,
        true_and, and_true]
      omega
    · intro _
      have h1 := execToolCalls_fst_ne_nil qe jl (iterations + 1) (llm messages).tool_calls
        (htools messages)
      simp [h1]

theorem reactLoop_cache_of_not_done (llm : List Msg → ModelMsg) (qe : QueryEngine)
    (jl : String → Option Args) (key : String) (now : Int) :
    ∀ (fuel iterations : Nat) (messages : List Msg) (steps : List StepRec)
      (cache : ReactCache) (calls : Nat),
      (reactLoop llm qe jl key now fuel iterations messages steps cache calls).done = false →
      (reactLoop llm qe jl key now fuel iterations messages steps cache calls).cache = cache := by
  intro fuel
  induction fuel with
  | zero =>
    intro iterations messages steps cache calls _
    simp [reactLoop]
  | succ fuel ih =>
    intro iterations messages steps cache calls hdone
    rw [reactLoop] at hdone ⊢
    by_cases hc : (llm messages).tool_calls = []
    · rw [if_pos hc] at hdone
      simp at hdone
    · rw [if_neg hc] at hdone ⊢
      exact ih _ _ _ _ _ hdone

theorem reactLoop_cached_false (llm : List Msg → ModelMsg) (qe : QueryEngine)
    (jl : String → Option Args) (key : String) (now : Int) :
    ∀ (fuel iterations : Nat) (messages : List Msg) (steps : List StepRec)
      (cache : ReactCache) (calls : Nat),
      (reactLoop llm qe jl key now fuel iterations messages steps cache calls).result.cached
        = false := by
  intro fuel
  induction fuel with
  | zero =>
    intro iterations messages steps cache calls
    simp [reactLoop]
  | succ fuel ih =>
    intro iterations messages steps cache calls
    rw [reactLoop]
    by_cases hc : (llm messages).tool_calls = []
    · rw [if_pos hc]
    · rw [if_neg hc]
      exact ih _ _ _ _ _

/-! ## Concrete collaborators used by witnesses and counterexamples -/

/-- A fact query interface whose every operation succeeds with an empty
result set. -/
def qeEmptyW : QueryEngine :=
  ⟨fun _ => .ok [], fun _ => .ok [], fun _ => .ok [], .ok [], .ok [], .ok [],
    .ok [], .ok []⟩

/-- A generation service that requests one tool invocation on every
turn and never produces a final message. -/
def llmToolsW : List Msg → ModelMsg :=
  fun _ => ⟨none, [⟨"call_1", "get_absorbers", "\x7b\x7d"⟩]⟩

/-- A JSON argument decoder that always yields the empty object. -/
def jlW : String → Option Args := fun _ => some []

/-- Claim C1: on a session-cache miss, if the generation service
requests at least one tool invocation on every turn, ReActAgent.answer
makes exactly MAX_ITERATIONS (6) generation-service calls, returns the
fixed exhausted-state answer, and carries a non-empty accumulated trace
of ToolInvocationRecords. -/
theorem react_exhaustion_budget (llm : List Msg → ModelMsg) (qe : QueryEngine)
    (jsonLoads : String → Option Args) (hash : String → String) (ttl now : Int)
    (cache : ReactCache) (q : String)
    (hmiss : freshEntry ttl now (make_key hash q) cache = none)
    (htools : ∀ m, (llm m).tool_calls ≠ []) :
    (ReActAgent.answer llm qe jsonLoads hash ttl now cache q).genCalls = MAX_ITERATIONS ∧
    (ReActAgent.answer llm qe jsonLoads hash ttl now cache q).result.answer =
      "Reached maximum reasoning steps." ∧
    (ReActAgent.answer llm qe jsonLoads hash ttl now cache q).result.steps ≠ [] := by
  obtain ⟨extra, heq, hne⟩ := reactLoop_exhausts llm qe jsonLoads (make_key hash q) now htools
    MAX_ITERATIONS 0 [Msg.system REACT_SYSTEM_PROMPT, Msg.user q] [] cache 0
  rw [ReActAgent.answer, hmiss, heq]
  refine ⟨by simp, rfl, ?_⟩
  simpa using hne (by decide)

/-- Witness for C1 at a concrete miss state and an always-requesting
service. -/
theorem react_exhaustion_budget_witness :
    (ReActAgent.answer llmToolsW qeEmptyW jlW id 86400 0 [] "q1").genCalls =
      MAX_ITERATIONS ∧
    (ReActAgent.answer llmToolsW qeEmptyW jlW id 86400 0 [] "q1").result.answer =
      "Reached maximum reasoning steps." ∧
    (ReActAgent.answer llmToolsW qeEmptyW jlW id 86400 0 [] "q1").result.steps ≠ [] :=
  react_exhaustion_budget llmToolsW qeEmptyW jlW id 86400 0 [] "q1" rfl
    (fun _ h => List.noConfusion h)

/-- Claim C9: when the session-cache lookup misses and the run does not
end through the final-message branch, the session cache is left
unchanged, the key is still unmapped, and a subsequent identical query
is not served from the cache. -/
theorem exhausted_leaves_cache_unchanged (llm : List Msg → ModelMsg)
    (qe : QueryEngine) (jsonLoads : String → Option Args) (hash : String → String)
    (ttl now : Int) (cache : ReactCache) (q : String)
    (hmiss : cacheGet (make_key hash q) cache = none)
    (hdone : (ReActAgent.answer llm qe jsonLoads hash ttl now cache q).done = false) :
    (ReActAgent.answer llm qe jsonLoads hash ttl now cache q).cache = cache ∧
    cacheGet (make_key hash q)
      (ReActAgent.answer llm qe jsonLoads hash ttl now cache q).cache = none ∧
    ∀ (llm2 : List Msg → ModelMsg) (now2 : Int),
      (ReActAgent.answer llm2 qe jsonLoads hash ttl now2
        (ReActAgent.answer llm qe jsonLoads hash ttl now cache q).cache q).result.cached
        = false := by
  have hfresh : freshEntry ttl now (make_key hash q) cache = none := by
    rw [freshEntry, hmiss]
  rw [ReActAgent.answer, hfresh] at hdone ⊢
  have hcache := reactLoop_cache_of_not_done llm qe jsonLoads (make_key hash q) now
    MAX_ITERATIONS 0 [Msg.system REACT_SYSTEM_PROMPT, Msg.user q] [] cache 0 hdone
  refine ⟨hcache, ?_, ?_⟩
  · rw [hcache, hmiss]
  · intro llm2 now2
    rw [hcache]
    have hfresh2 : ∀ now2 : Int, freshEntry ttl now2 (make_key hash q) cache = none := by
      intro n2
      rw [freshEntry, hmiss]
    rw [ReActAgent.answer, hfresh2 now2]
    exact reactLoop_cached_false llm2 qe jsonLoads (make_key hash q) now2
      MAX_ITERATIONS 0 [Msg.system REACT_SYSTEM_PROMPT, Msg.user q] [] cache 0

/-- Witness for C9 on a concrete empty cache with an always-requesting
service (the run exhausts, so the final-message branch is never taken). -/
theorem exhausted_leaves_cache_unchanged_witness :
    (ReActAgent.answer llmToolsW qeEmptyW jlW id 86400 5 [] "q2").cache = [] ∧
    cacheGet (make_key id "q2")
      (ReActAgent.answer llmToolsW qeEmptyW jlW id 86400 5 [] "q2").cache = none ∧
    ∀ (llm2 : List Msg → ModelMsg) (now2 : Int),
      (ReActAgent.answer llm2 qeEmptyW jlW id 86400 now2
        (ReActAgent.answer llmToolsW qeEmptyW jlW id 86400 5 [] "q2").cache "q2").result.cached
        = false :=
  exhausted_leaves_cache_unchanged llmToolsW qeEmptyW jlW id 86400 5 [] "q2" rfl rfl

/-- A stored reasoning result used to exhibit a stale session-cache
entry. -/
def staleResultW : ReactResult := ⟨"old answer", [], 3, false⟩

/-- A session cache holding one entry, written at time 0, for the key
of query q1 under the identity digest. -/
def staleCacheW : ReactCache := [("q1", ⟨staleResultW, 0⟩)]

/-- Claim C4, counterexample: at time 86401 with TTL 86400 the entry of
staleCacheW is older than the TTL, the lookup treats it as absent (the
run is not served from cache), yet the entry is still present in the
session cache afterwards — the reasoning agent does not remove stale
entries on lookup, contradicting the claim that the next lookup of an
expired key removes it from the persistent store. -/
theorem react_stale_entry_not_removed :
    (ReActAgent.answer llmToolsW qeEmptyW jlW id 86400 86401 staleCacheW "q1").result.cached
      = false ∧
    cacheGet (make_key id "q1")
      (ReActAgent.answer llmToolsW qeEmptyW jlW id 86400 86401 staleCacheW "q1").cache
      = some ⟨staleResultW, 0⟩ := by
  constructor
  · rfl
  · rfl

/-- Claim C4, amended: in the single-shot agent cache an entry older
than the TTL is reported as a miss and deleted by the lookup itself; in
the reasoning agent a stale entry is likewise treated as absent, but
the lookup does not delete it — when the run then exhausts its budget
the stale entry survives in the store. -/
theorem ttl_expiry_amended :
    (∀ (ttl now : Int) (key : String) (cache : FileCache) (e : CacheEntry),
      cacheGet key cache = some e → now - e.ts > ttl →
      get_cached ttl now key cache = (none, cacheErase key cache) ∧
      cacheGet key (get_cached ttl now key cache).2 = none) ∧
    (∀ (llm : List Msg → ModelMsg) (qe : QueryEngine)
      (jsonLoads : String → Option Args) (hash : String → String)
      (ttl now : Int) (cache : ReactCache) (q : String) (e : ReactEntry),
      cacheGet (make_key hash q) cache = some e → ¬(now - e.ts < ttl) →
      (∀ m, (llm m).tool_calls ≠ []) →
      (ReActAgent.answer llm qe jsonLoads hash ttl now cache q).cache = cache ∧
      cacheGet (make_key hash q)
        (ReActAgent.answer llm qe jsonLoads hash ttl now cache q).cache = some e) := by
  constructor
  · intro ttl now key cache e he hexp
    have hg : get_cached ttl now key cache = (none, cacheErase key cache) := by
      rw [get_cached, he]
      exact if_pos hexp
    exact ⟨hg, by rw [hg]; exact cacheGet_erase_self key cache⟩
  · intro llm qe jsonLoads hash ttl now cache q e he hstale htools
    have hfresh : freshEntry ttl now (make_key hash q) cache = none := by
      rw [freshEntry, he]
      exact if_neg hstale
    obtain ⟨extra, heq, -⟩ := reactLoop_exhausts llm qe jsonLoads (make_key hash q) now htools
      MAX_ITERATIONS 0 [Msg.system REACT_SYSTEM_PROMPT, Msg.user q] [] cache 0
    rw [ReActAgent.answer, hfresh, heq]
    exact ⟨rfl, he⟩

/-- Witness for the amended C4 at concrete expired entries on both
caches. -/
theorem ttl_expiry_amended_witness :
    (get_cached 86400 86401 "k" [("k", ⟨"a", 0⟩)] =
      (none, cacheErase "k" [("k", ⟨"a", 0⟩)]) ∧
      cacheGet "k" (get_cached 86400 86401 "k" [("k", ⟨"a", 0⟩)]).2 = none) ∧
    ((ReActAgent.answer llmToolsW qeEmptyW jlW id 86400 86401 staleCacheW "q1").cache
        = staleCacheW ∧
      cacheGet (make_key id "q1")
        (ReActAgent.answer llmToolsW qeEmptyW jlW id 86400 86401 staleCacheW "q1").cache
        = some ⟨staleResultW, 0⟩) :=
  ⟨ttl_expiry_amended.1 86400 86401 "k" [("k", ⟨"a", 0⟩)] ⟨"a", 0⟩ rfl (by decide),
    ttl_expiry_amended.2 llmToolsW qeEmptyW jlW id 86400 86401 staleCacheW "q1"
      ⟨staleResultW, 0⟩ rfl (by decide) (fun _ h => List.noConfusion h)⟩

/-! ## Lemmas about the single-shot cache lookup -/

theorem get_cached_none (ttl now : Int) (key : String) (c : FileCache)
    (hcg : cacheGet key c = none) : get_cached ttl now key c = (none, c) := by
  rw [get_cached, hcg]

theorem get_cached_some_fresh (ttl now : Int) (key : String) (c : FileCache)
    (en : CacheEntry) (hcg : cacheGet key c = some en) (hexp : ¬(now - en.ts > ttl)) :
    get_cached ttl now key c = (some en.answer, c) := by
  rw [get_cached, hcg]
  exact if_neg hexp

theorem get_cached_some_stale (ttl now : Int) (key : String) (c : FileCache)
    (en : CacheEntry) (hcg : cacheGet key c = some en) (hexp : now - en.ts > ttl) :
    get_cached ttl now key c = (none, cacheErase key c) := by
  rw [get_cached, hcg]
  exact if_pos hexp

theorem get_cached_fst_some (ttl now : Int) (key : String) (c : FileCache) (a : String)
    (h : (get_cached ttl now key c).1 = some a) :
    (get_cached ttl now key c).2 = c ∧
      ∃ en : CacheEntry, cacheGet key c = some en ∧ en.answer = a := by
  cases hcg : cacheGet key c with
  | none =>
    rw [get_cached_none ttl now key c hcg] at h
    exact absurd h (by simp)
  | some en =>
    by_cases hexp : now - en.ts > ttl
    · rw [get_cached_some_stale ttl now key c en hcg hexp] at h
      exact absurd h (by simp)
    · rw [get_cached_some_fresh ttl now key c en hcg hexp] at h ⊢
      exact ⟨rfl, en, rfl, by simpa using h⟩

theorem get_cached_miss_entry (ttl now : Int) (key : String) (c : FileCache)
    (h : pyTruthyStr (get_cached ttl now key c).1 = false)
    (en : CacheEntry) (hen : cacheGet key (get_cached ttl now key c).2 = some en) :
    en.answer = "" := by
  cases hcg : cacheGet key c with
  | none =>
    rw [get_cached_none ttl now key c hcg] at hen
    rw [hcg] at hen
    exact absurd hen (by simp)
  | some e0 =>
    by_cases hexp : now - e0.ts > ttl
    · rw [get_cached_some_stale ttl now key c e0 hcg hexp] at hen
      rw [cacheGet_erase_self key c] at hen
      exact absurd hen (by simp)
    · rw [get_cached_some_fresh ttl now key c e0 hcg hexp] at h hen
      have he0 : e0.answer = "" := by
        by_contra hne
        simp [pyTruthyStr, hne] at h
      rw [hcg] at hen
      cases hen
      exact he0

/-- Claim C5: on a file-cache miss, a whitespace-only retrieval context
makes the single-shot agent return the fixed grounding message without
any generation-service call; and in every run, a generation-service
call implies the built context was not whitespace-only. -/
theorem empty_context_grounding :
    (∀ (bctx llm : String → Except String String) (hash : String → String)
      (ttl now : Int) (cache : FileCache) (q ctx : String),
      pyTruthyStr (get_cached ttl now (make_key hash q) cache).1 = false →
      bctx q = .ok ctx → pyStrip ctx = "" →
      LLMAgent.answer bctx llm hash ttl now cache q =
        .ok ⟨notFoundMsg, (get_cached ttl now (make_key hash q) cache).2, 0⟩) ∧
    (∀ (bctx llm : String → Except String String) (hash : String → String)
      (ttl now : Int) (cache : FileCache) (q : String) (r : LLMAnswer),
      LLMAgent.answer bctx llm hash ttl now cache q = .ok r → r.llmCalls ≠ 0 →
      ∃ ctx, bctx q = .ok ctx ∧ pyStrip ctx ≠ "") := by
  constructor
  · intro bctx llm hash ttl now cache q ctx hmiss hctx hempty
    rw [LLMAgent.answer]
    simp only [hmiss, Bool.false_eq_true, if_false]
    rw [LLMAgent.answerMiss, hctx]
    exact if_pos hempty
  · intro bctx llm hash ttl now cache q r hr hcalls
    rw [LLMAgent.answer] at hr
    by_cases hmiss : pyTruthyStr (get_cached ttl now (make_key hash q) cache).1 = true
    · rw [if_pos hmiss] at hr
      cases hr
      exact absurd rfl hcalls
    · rw [if_neg hmiss] at hr
      rw [LLMAgent.answerMiss] at hr
      cases hctx : bctx q with
      | error exc => rw [hctx] at hr; cases hr
      | ok ctx =>
        rw [hctx] at hr
        dsimp only at hr
        by_cases hempty : pyStrip ctx = ""
        · rw [if_pos hempty] at hr
          cases hr
          exact absurd rfl hcalls
        · exact ⟨ctx, rfl, hempty⟩

/-- A concrete retrieval-context builder yielding only whitespace. -/
def bctxBlankW : String → Except String String := fun _ => .ok "  \n"

/-- A concrete generation service returning a fixed answer. -/
def llmOkW : String → Except String String := fun _ => .ok "some answer"

/-- Witness for C5 at a concrete empty cache and whitespace-only
context. -/
theorem empty_context_grounding_witness :
    LLMAgent.answer bctxBlankW llmOkW id 86400 0 [] "zzz" =
      .ok ⟨notFoundMsg, (get_cached 86400 0 (make_key id "zzz") []).2, 0⟩ :=
  empty_context_grounding.1 bctxBlankW llmOkW id 86400 0 [] "zzz" "  \n" rfl rfl rfl

/-- A concrete retrieval-context builder that raises, modelling a fact
query failure inside build_context_for_query. -/
def bctxErrW : String → Except String String := fun _ => .error "rdflib failure"

/-- Claim C6, counterexample: a context-build failure is not caught by
LLMAgent.answer — the error escapes the agent boundary instead of being
converted into a descriptive answer string. -/
theorem context_build_error_escapes :
    LLMAgent.answer bctxErrW llmOkW id 86400 0 [] "q6" =
      .error "rdflib failure" := rfl

/-- Claim C6, amended: a generation-service failure is caught and
converted into the descriptive error answer, but a context-build
failure propagates out of LLMAgent.answer uncaught. -/
theorem llm_error_containment :
    (∀ (bctx llm : String → Except String String) (hash : String → String)
      (ttl now : Int) (cache : FileCache) (q ctx exc : String),
      pyTruthyStr (get_cached ttl now (make_key hash q) cache).1 = false →
      bctx q = .ok ctx → pyStrip ctx ≠ "" →
      llm (mkUserMessage ctx q) = .error exc →
      LLMAgent.answer bctx llm hash ttl now cache q =
        .ok ⟨"Error communicating with the LLM: " ++ exc,
          (get_cached ttl now (make_key hash q) cache).2, 1⟩) ∧
    (∀ (bctx llm : String → Except String String) (hash : String → String)
      (ttl now : Int) (cache : FileCache) (q exc : String),
      pyTruthyStr (get_cached ttl now (make_key hash q) cache).1 = false →
      bctx q = .error exc →
      LLMAgent.answer bctx llm hash ttl now cache q = .error exc) := by
  constructor
  · intro bctx llm hash ttl now cache q ctx exc hmiss hctx hne hllm
    rw [LLMAgent.answer]
    simp only [hmiss, Bool.false_eq_true, if_false]
    rw [LLMAgent.answerMiss, hctx]
    dsimp only
    rw [if_neg hne, hllm]
  · intro bctx llm hash ttl now cache q exc hmiss hctx
    rw [LLMAgent.answer]
    simp only [hmiss, Bool.false_eq_true, if_false]
    rw [LLMAgent.answerMiss, hctx]

/-- A concrete context builder with a non-empty context. -/
def bctxCtxW : String → Except String String := fun _ => .ok "ctx"

/-- A concrete generation service whose transport fails. -/
def llmErrW : String → Except String String := fun _ => .error "boom"

/-- Witness for the amended C6 at a concrete failing service. -/
theorem llm_error_containment_witness :
    LLMAgent.answer bctxCtxW llmErrW id 86400 0 [] "q7" =
      .ok ⟨"Error communicating with the LLM: " ++ "boom",
        (get_cached 86400 0 (make_key id "q7") []).2, 1⟩ :=
  llm_error_containment.1 bctxCtxW llmErrW id 86400 0 [] "q7" "ctx" "boom" rfl rfl
    (by decide) rfl

/-- Claim C10: a fresh persistent-cache entry whose stored answer is
the empty string fails the truthiness hit test, so on a non-empty
context the generation service is invoked again even though a valid
entry exists for the key. -/
theorem empty_cached_answer_is_miss (bctx llm : String → Except String String)
    (hash : String → String) (ttl now : Int) (cache : FileCache) (q ctx : String)
    (e : CacheEntry) (he : cacheGet (make_key hash q) cache = some e)
    (hempty : e.answer = "") (hfresh : ¬(now - e.ts > ttl))
    (hctx : bctx q = .ok ctx) (hne : pyStrip ctx ≠ "") :
    (LLMAgent.answer bctx llm hash ttl now cache q).map (fun r => r.llmCalls) =
      .ok 1 := by
  have hg := get_cached_some_fresh ttl now (make_key hash q) cache e he hfresh
  rw [LLMAgent.answer]
  simp only [hg, hempty]
  simp only [pyTruthyStr, bne_self_eq_false, Bool.false_eq_true, if_false]
  rw [LLMAgent.answerMiss, hctx]
  dsimp only
  rw [if_neg hne]
  cases hllm : llm (mkUserMessage ctx q) with
  | ok content => rfl
  | error exc => rfl

/-- A persistent cache holding a fresh entry with an empty stored
answer. -/
def emptyAnswerCacheW : FileCache := [("q8", ⟨"", 0⟩)]

/-- Witness for C10: with the empty-answer entry fresh at time 10, the
service is called once more. -/
theorem empty_cached_answer_is_miss_witness :
    (LLMAgent.answer bctxCtxW llmOkW id 86400 10 emptyAnswerCacheW "q8").map
      (fun r => r.llmCalls) = .ok 1 :=
  empty_cached_answer_is_miss bctxCtxW llmOkW id 86400 10 emptyAnswerCacheW "q8" "ctx"
    ⟨"", 0⟩ rfl rfl (by decide) rfl (by decide)

/-- A generation service that returns an empty message. -/
def llmEmptyAnsW : String → Except String String := fun _ => .ok ""

/-- A generation service that returns the answer B. -/
def llmBW : String → Except String String := fun _ => .ok "B"

/-- Claim C3, counterexample: the first call stores the empty answer the
service produced; on the second call the entry for the key is present
and unexpired, yet the agent calls the service again (the truthiness
hit test rejects the empty string) and returns a different answer — the
two answers are not byte-identical. -/
theorem empty_answer_breaks_idempotence :
    LLMAgent.answer bctxCtxW llmEmptyAnsW id 86400 0 [] "q" =
      .ok (⟨"", [("q", ⟨"", 0⟩)], 1⟩ : LLMAnswer) ∧
    cacheGet (make_key id "q") [("q", (⟨"", 0⟩ : CacheEntry))] = some ⟨"", 0⟩ ∧
    ¬((10 : Int) - 0 > 86400) ∧
    LLMAgent.answer bctxCtxW llmBW id 86400 10 [("q", (⟨"", 0⟩ : CacheEntry))] "q" =
      .ok (⟨"B", [("q", ⟨"B", 10⟩)], 1⟩ : LLMAnswer) ∧
    ("B" : String) ≠ "" :=
  ⟨rfl, rfl, by decide, rfl, by decide⟩

/-- Claim C3, amended: if after the first call the persistent cache
holds an entry for the normalized-query key whose stored answer is
non-empty, and that entry is unexpired at the time of the second call,
then the second call (under any collaborator behaviour) is served from
the cache: it returns exactly the stored answer, which is byte-identical
to the first answer, and leaves the cache state - hence the entry
count - unchanged. -/
theorem answer_idempotent_nonempty
    (bctx1 llm1 bctx2 llm2 : String → Except String String)
    (hash : String → String) (ttl t1 t2 : Int) (c0 : FileCache) (q : String)
    (r1 : LLMAnswer) (h1 : LLMAgent.answer bctx1 llm1 hash ttl t1 c0 q = .ok r1)
    (e : CacheEntry) (he : cacheGet (make_key hash q) r1.cache = some e)
    (hne : e.answer ≠ "") (hfresh : ¬(t2 - e.ts > ttl)) :
    LLMAgent.answer bctx2 llm2 hash ttl t2 r1.cache q =
      .ok ⟨e.answer, r1.cache, 0⟩ ∧
    e.answer = r1.answer := by
  constructor
  · rw [LLMAgent.answer]
    have hg2 := get_cached_some_fresh ttl t2 (make_key hash q) r1.cache e he hfresh
    simp only [hg2]
    have ht : pyTruthyStr (some e.answer) = true := by simp [pyTruthyStr, hne]
    rw [if_pos ht]
    rfl
  · rw [LLMAgent.answer] at h1
    by_cases hmiss : pyTruthyStr (get_cached ttl t1 (make_key hash q) c0).1 = true
    · rw [if_pos hmiss] at h1
      cases hfst : (get_cached ttl t1 (make_key hash q) c0).1 with
      | none => rw [hfst] at hmiss; simp [pyTruthyStr] at hmiss
      | some a =>
        obtain ⟨h2eq, en, hcg, hena⟩ :=
          get_cached_fst_some ttl t1 (make_key hash q) c0 a hfst
        rw [hfst] at h1
        cases h1
        dsimp only at he ⊢
        rw [h2eq] at he
        rw [he] at hcg
        cases hcg
        rw [hena]
        rfl
    · rw [Bool.not_eq_true] at hmiss
      rw [if_neg (by simp [hmiss])] at h1
      rw [LLMAgent.answerMiss] at h1
      cases hctx : bctx1 q with
      | error exc => rw [hctx] at h1; cases h1
      | ok ctx =>
        rw [hctx] at h1
        dsimp only at h1
        by_cases hempty : pyStrip ctx = ""
        · rw [if_pos hempty] at h1
          cases h1
          dsimp only at he
          exact absurd (get_cached_miss_entry ttl t1 (make_key hash q) c0 hmiss e he) hne
        · rw [if_neg hempty] at h1
          cases hllm : llm1 (mkUserMessage ctx q) with
          | ok content =>
            rw [hllm] at h1
            dsimp only at h1
            cases h1
            dsimp only at he ⊢
            rw [set_cached, cacheGet_set_self] at he
            cases he
            rfl
          | error exc =>
            rw [hllm] at h1
            cases h1
            dsimp only at he
            exact absurd (get_cached_miss_entry ttl t1 (make_key hash q) c0 hmiss e he) hne

/-- The cache state produced by the concrete first call of the
idempotence witness. -/
def idemCacheW : FileCache := [("q9", ⟨"some answer", 0⟩)]

/-- Witness for the amended C3: a concrete first call stores a
non-empty answer; the second call, with a different context builder and
a failing service, still returns the identical stored answer with the
cache unchanged. -/
theorem answer_idempotent_nonempty_witness :
    LLMAgent.answer bctxBlankW llmErrW id 86400 5 idemCacheW "q9" =
      .ok ⟨"some answer", idemCacheW, 0⟩ ∧
    ("some answer" : String) = "some answer" := by
  have h := answer_idempotent_nonempty bctxCtxW llmOkW bctxBlankW llmErrW id 86400 0 5
    [] "q9" ⟨"some answer", idemCacheW, 1⟩ rfl ⟨"some answer", 0⟩ rfl (by decide)
    (by decide)
  exact h

/-- Claim C8, counterexample: with an empty persistent cache and one
entry memoised in the LRU tier, clearing all tiers removes one entry in
total but reports 0 — the returned count omits the in-memory tier. -/
theorem clear_cache_miscount :
    (LLMAgent.clear_cache [] ⟨[("q", "ctx")], 256⟩).1 ≠
      ([] : FileCache).length + ([("q", "ctx")] : List (String × String)).length := by
  decide

/-- Claim C8, amended: clearing all tiers empties both the persistent
file cache and the in-memory LRU tier, but the reported count is the
number of persistent entries only. -/
theorem clear_cache_returns_file_count (fc : FileCache) (lru : LRUCache) :
    (LLMAgent.clear_cache fc lru).1 = fc.length ∧
    (LLMAgent.clear_cache fc lru).2.1 = [] ∧
    (LLMAgent.clear_cache fc lru).2.2.entries = [] :=
  ⟨rfl, rfl, rfl⟩

/-! ## Provenance theorems -/

/-- A fact base listing one entity whose name carries a parenthetical
abbreviation. -/
def qeAbbrevC : QueryEngine :=
  { qeEmptyW with get_all_entities := Except.ok [[("name", "Foo (AB)")]] }

/-- Claim C2, counterexample: the answer text is lab, which does not
contain the entity name Foo (AB) even case-insensitively, yet the name
is cited — its parenthetical abbreviation ab matches inside lab.  A
name absent from the answer text can therefore appear in
cited_entities. -/
theorem cited_abbrev_overmatch :
    (build_provenance id "ts" "query" "lab" qeAbbrevC [] 1 false).map
      (fun r => r.cited_entities) = Except.ok ["Foo (AB)"] ∧
    occursInStr (pyLower "Foo (AB)") (pyLower "lab") = false :=
  ⟨rfl, rfl⟩

/-- Claim C2, amended: provided at most 15 distinct entity names match,
a name appears in cited_entities exactly when it is a listed entity
name and either the name itself or its non-empty parenthetical
abbreviation occurs case-insensitively as a contiguous substring of the
answer; the abbreviation clause can cite a name whose own text is
absent, and with more than 15 distinct matches the later ones are
dropped. -/
theorem cited_entities_characterization (qe : QueryEngine) (rows : List Row)
    (hash : String → String) (now_iso query answer : String)
    (agent_steps : List StepRec) (agent_iterations : Nat) (cached : Bool)
    (r : ProvenanceRecord)
    (hrows : qe.get_all_entities = .ok rows)
    (hr : build_provenance hash now_iso query answer qe agent_steps agent_iterations
      cached = .ok r)
    (hsmall : (dedupFirst ((entityNames rows).filter
      (nameMatches (pyLower answer)))).length ≤ 15)
    (name : String) :
    name ∈ r.cited_entities ↔
      name ∈ entityNames rows ∧
        ((∃ s t, (pyLower answer).data = s ++ (pyLower name).data ++ t) ∨
          (extract_abbrev name ≠ "" ∧
            ∃ s t, (pyLower answer).data = s ++ (extract_abbrev name).data ++ t)) := by
  have hcited : r.cited_entities =
      (dedupFirst ((entityNames rows).filter (nameMatches (pyLower answer)))).take 15 := by
    rw [build_provenance, hrows] at hr
    dsimp only at hr
    cases hct : collectTriples qe ((cited_of rows answer).take 8) [] [] with
    | error err => rw [hct] at hr; cases hr
    | ok tr => rw [hct] at hr; cases hr; rfl
  have hmatch : nameMatches (pyLower answer) name = true ↔
      ((∃ s t, (pyLower answer).data = s ++ (pyLower name).data ++ t) ∨
        (extract_abbrev name ≠ "" ∧
          ∃ s t, (pyLower answer).data = s ++ (extract_abbrev name).data ++ t)) := by
    simp only [nameMatches, Bool.or_eq_true, Bool.and_eq_true, decide_eq_true_eq]
    constructor
    · rintro (h | ⟨hab, h⟩)
      · exact Or.inl ((occursIn_iff (pyLower name).data (pyLower answer).data).mp h)
      · exact Or.inr ⟨hab,
          (occursIn_iff (extract_abbrev name).data (pyLower answer).data).mp h⟩
    · rintro (h | ⟨hab, h⟩)
      · exact Or.inl ((occursIn_iff (pyLower name).data (pyLower answer).data).mpr h)
      · exact Or.inr ⟨hab,
          (occursIn_iff (extract_abbrev name).data (pyLower answer).data).mpr h⟩
  rw [hcited, List.take_of_length_le hsmall, mem_dedupFirst, List.mem_filter, hmatch]

/-- A fact base listing one entity named MAPbI3. -/
def qeMapW : QueryEngine :=
  { qeEmptyW with get_all_entities := Except.ok [[("name", "MAPbI3")]] }

/-- Witness for the amended C2: MAPbI3 is cited for an answer that
contains it. -/
theorem cited_entities_characterization_witness :
    "MAPbI3" ∈ (ProvenanceRecord.mk "qq" "qq" "t" ["MAPbI3"] [] [] 2 false).cited_entities :=
  (cited_entities_characterization qeMapW [[("name", "MAPbI3")]] id "t" "qq"
      "MAPbI3 rocks" [] 2 false (ProvenanceRecord.mk "qq" "qq" "t" ["MAPbI3"] [] [] 2 false)
      rfl rfl (by decide) "MAPbI3").mpr
    ⟨by decide, Or.inl ⟨[], " rocks".data, by decide⟩⟩

/-- A fact base whose entity listing succeeds but whose detail lookup
fails. -/
def qeDetailErrC : QueryEngine :=
  { qeEmptyW with
    get_all_entities := Except.ok [[("name", "MAPbI3")]],
    get_entity_details := fun _ => Except.error "timeout" }

/-- Claim C7, counterexample: the entity listing succeeds and MAPbI3 is
cited, but the detail fetch for it fails partway through the
derivation — the failure propagates out of build_provenance and no
record (partial or otherwise) is produced. -/
theorem provenance_error_blocks_record :
    build_provenance id "t" "q" "MAPbI3 info" qeDetailErrC [] 2 false =
      Except.error "timeout" := rfl

/-- Claim C7, amended: build_provenance is a pure derivation (it
returns only the record and performs no writes), but it has no
exception handler: a fact-query failure — in the entity listing or in a
detail fetch for a cited entity — propagates to the caller instead of
yielding a partial record. -/
theorem provenance_error_propagation :
    (∀ (hash : String → String) (now_iso query answer : String) (qe : QueryEngine)
      (agent_steps : List StepRec) (agent_iterations : Nat) (cached : Bool)
      (err : String),
      qe.get_all_entities = .error err →
      build_provenance hash now_iso query answer qe agent_steps agent_iterations cached =
        .error err) ∧
    (∀ (hash : String → String) (now_iso query answer : String) (qe : QueryEngine)
      (agent_steps : List StepRec) (agent_iterations : Nat) (cached : Bool)
      (err : String) (rows : List Row) (nm : String) (rest : List String),
      qe.get_all_entities = .ok rows →
      (cited_of rows answer).take 8 = nm :: rest →
      qe.get_entity_details nm = .error err →
      build_provenance hash now_iso query answer qe agent_steps agent_iterations cached =
        .error err) := by
  constructor
  · intro hash now_iso query answer qe agent_steps agent_iterations cached err herr
    rw [build_provenance, herr]
  · intro hash now_iso query answer qe agent_steps agent_iterations cached err rows nm
      rest hok hcons hdet
    rw [build_provenance, hok]
    dsimp only
    rw [hcons]
    have hct : collectTriples qe (nm :: rest) [] [] = .error err := by
      simp only [collectTriples]
      rw [hdet]
    rw [hct]

/-- A fact base whose entity listing itself fails. -/
def qeAllErrW : QueryEngine :=
  { qeEmptyW with get_all_entities := Except.error "down" }

/-- Witness for the amended C7 at a concrete failing entity listing. -/
theorem provenance_error_propagation_witness :
    build_provenance id "t" "q" "a" qeAllErrW [] 1 false = Except.error "down" :=
  provenance_error_propagation.1 id "t" "q" "a" qeAllErrW [] 1 false "down" rfl
